import Mathlib

/-!
Verification of the DropCountr integration's coordinator and sensor logic.

The Python source is shallowly embedded: timestamps are integers counting
seconds (Python datetimes under arithmetic with `timedelta`), volumes are
rationals (Python floats under exact arithmetic), and the stateful
coordinator methods become pure functions that take and return their state
explicitly.  Each definition mirrors one function of
`custom_components/dropcountr/coordinator.py`, `sensor.py` or
`binary_sensor.py`.
-/

/-- One metered interval's readings, mirroring `pydropcountr.UsageData` as the
coordinator and sensors consume it (`start_date`, `end_date`, `total_gallons`,
`irrigation_gallons`, `irrigation_events`, `is_leaking`). -/
structure UsageData where
  startDate : Int
  endDate : Int
  totalGallons : ℚ
  irrigationGallons : ℚ
  irrigationEvents : ℚ
  isLeaking : Bool
deriving DecidableEq

/-- The API's usage response as consumed by the coordinator: a list of usage
records, ascending by `start_date`. -/
structure UsageResponse where
  usageData : List UsageData
deriving DecidableEq

/-- `dt.replace(minute=0, second=0, microsecond=0)` on a timestamp in seconds:
truncate down to the enclosing hour.  `Int` division by a positive divisor is
floor division, as in Python. -/
def hourKey (ts : Int) : Int := 3600 * (ts / 3600)

/-- `dt.date()` on a timestamp in seconds: the calendar day number. -/
def dayKey (ts : Int) : Int := ts / 86400

/-- Retention window for the hourly seen-timestamp state: `timedelta(days=7)`
in seconds. -/
def retentionSeconds : Int := 604800

/-- `_detect_new_historical_data` (coordinator.py): keep the records whose
hour key is not in the seen set, that are more than 2 hours old
(`hours_old > 2`, i.e. `now - start_date > 7200` seconds) and that have
`total_gallons > 0`; return them sorted ascending by `start_date` (Python's
stable sort, modelled by the stable `insertionSort`). -/
def detectNewHistoricalData (now : Int) (seen : List Int)
    (resp : UsageResponse) : List UsageData :=
  if resp.usageData.isEmpty then []
  else
    (resp.usageData.filter (fun d =>
      decide (hourKey d.startDate ∉ seen) &&
      decide (7200 < now - d.startDate) &&
      decide (0 < d.totalGallons))).insertionSort
      (fun a b => a.startDate ≤ b.startDate)

/-- `_update_historical_state` (coordinator.py): on a non-empty response,
collect the hour keys lying between `cutoff = now - 7 days` and `now`
inclusive, union them with the existing seen set, and keep only the hours
strictly newer than the cutoff.  An empty response returns early, leaving the
state untouched. -/
def updateHistoricalState (now : Int) (seen : List Int)
    (resp : UsageResponse) : List Int :=
  if resp.usageData.isEmpty then seen
  else
    let cutoff := now - retentionSeconds
    let newHours := (resp.usageData.map (fun d => hourKey d.startDate)).filter
      (fun h => decide (cutoff ≤ h) && decide (h ≤ now))
    (seen ++ newHours).filter (fun h => decide (cutoff < h))

/-- `_cleanup_historical_state` (coordinator.py): drop every seen hour that is
not strictly newer than `now - 7 days`. -/
def cleanupHistoricalState (now : Int) (seen : List Int) : List Int :=
  seen.filter (fun h => decide (now - retentionSeconds < h))

/-- A statistics row as handed to `async_add_external_statistics`:
(start, state, sum). -/
structure StatRow where
  start : Int
  state : ℚ
  sum : ℚ
deriving DecidableEq

/-- The inner per-metric loop of `_insert_historical_statistics`
(coordinator.py): given the checkpoint read back from the recorder
(`last_time`, `existing_sum`) and a metric selector, walk the settled records
in order; skip a record whose hour-truncated start is `≤ last_time`, otherwise
add its value to the running sum and emit a (start, state, sum) row. -/
def processMetricStatistics (lastTime : Int) (currentSum : ℚ)
    (value : UsageData → ℚ) : List UsageData → List StatRow
  | [] => []
  | d :: rest =>
    let localStart := hourKey d.startDate
    if localStart ≤ lastTime then
      processMetricStatistics lastTime currentSum value rest
    else
      let v := value d
      ⟨localStart, v, currentSum + v⟩ ::
        processMetricStatistics lastTime (currentSum + v) value rest

/-- The spec's description of what the merger appends for the records that
survive the checkpoint cut: each record becomes a (timestamp, value,
running-sum) triple, the first sum being `S + first value` and each subsequent
sum adding the next value. -/
def appendWithRunningSums (s : ℚ) (value : UsageData → ℚ) :
    List UsageData → List StatRow
  | [] => []
  | d :: rest =>
    ⟨hourKey d.startDate, value d, s + value d⟩ ::
      appendWithRunningSums (s + value d) value rest

/-- The three metric series `_insert_historical_statistics` maintains, in the
order of its `statistics_config` dict. -/
def metricTypes : List String := ["total_gallons", "irrigation_gallons", "irrigation_events"]

/-- Metric selector of the per-record `if metric_type == ...` chain in
`_insert_historical_statistics`. -/
def metricValue (m : String) (d : UsageData) : ℚ :=
  if m = "total_gallons" then d.totalGallons
  else if m = "irrigation_gallons" then d.irrigationGallons
  else d.irrigationEvents

/-- Session-scoped insertion key, `f"{metric_type}_{min(...)}_{max(...)}"`:
the metric name with the minimum and maximum record `start_date` of the
batch. -/
abbrev InsertionKey := String × Int × Int

/-- `min(data.start_date for data in historical_data)` (0 for the empty batch,
which the caller rules out). -/
def minStartDate : List UsageData → Int
  | [] => 0
  | d :: rest => rest.foldl (fun m x => min m x.startDate) d.startDate

/-- `max(data.start_date for data in historical_data)`. -/
def maxStartDate : List UsageData → Int
  | [] => 0
  | d :: rest => rest.foldl (fun m x => max m x.startDate) d.startDate

/-- `_check_and_mark_statistics_inserted` (coordinator.py) for one service
connection: report whether the key was already recorded this session and mark
it. -/
def checkAndMarkStatisticsInserted (session : List InsertionKey)
    (k : InsertionKey) : Bool × List InsertionKey :=
  if k ∈ session then (true, session) else (false, k :: session)

/-- The per-metric body of the `for metric_type, config in
statistics_config.items()` loop of `_insert_historical_statistics`: skip the
metric when its batch key was already inserted this session, otherwise read
the checkpoint for its statistic id (defaulting to time 0 and sum 0 when none
exists), produce the rows, and add their count. -/
def stepMetric (cps : String → Option (Int × ℚ)) (l : List UsageData)
    (acc : Nat × List InsertionKey) (m : String) : Nat × List InsertionKey :=
  let k : InsertionKey := (m, minStartDate l, maxStartDate l)
  let r := checkAndMarkStatisticsInserted acc.2 k
  if r.1 then (acc.1, r.2)
  else
    let cp := (cps m).getD (0, 0)
    let rows := processMetricStatistics cp.1 cp.2 (metricValue m) l
    (acc.1 + rows.length, r.2)

/-- `_insert_historical_statistics` (coordinator.py), state-passing form: on
an empty batch return 0 immediately; otherwise run the per-metric loop over
the three metric series, threading the inserted count and the session's
insertion-key set.  `cps` is the recorder's checkpoint per metric name. -/
def insertHistoricalStatistics (cps : String → Option (Int × ℚ))
    (session : List InsertionKey) (l : List UsageData) :
    Nat × List InsertionKey :=
  if l.isEmpty then (0, session)
  else metricTypes.foldl (stepMetric cps l) (0, session)

/-- State of the service-connection cache (`_cached_service_connections`,
`_service_connections_cache_time`).  Connections are abstracted to their
ids. -/
structure ConnectionCache where
  cachedConnections : Option (List Nat)
  cacheTime : Option Int
deriving DecidableEq

/-- Outcome of one `list_service_connections` call: a list, a `None` return,
or a raised exception. -/
inductive FetchOutcome
  | success (conns : List Nat)
  | returnedNone
  | raisedError
deriving DecidableEq

/-- Cache TTL: `timedelta(minutes=5)` in seconds. -/
def cacheDurationSeconds : Int := 300

/-- The fresh-fetch tail of `_get_cached_service_connections`: on success
store the list with the current time; on a `None` return or an exception fall
back to any existing cache (even an expired one) and only fail when none
exists.  The boolean records that the API was consulted. -/
def fetchFreshConnections (st : ConnectionCache) (now : Int)
    (fetch : FetchOutcome) : Except Unit (List Nat × ConnectionCache × Bool) :=
  match fetch with
  | .success conns => .ok (conns, ⟨some conns, some now⟩, true)
  | .returnedNone =>
    match st.cachedConnections with
    | some conns => .ok (conns, st, true)
    | none => .error ()
  | .raisedError =>
    match st.cachedConnections with
    | some conns => .ok (conns, st, true)
    | none => .error ()

/-- `_get_cached_service_connections` (coordinator.py): return the cached list
without touching the API while the cache is younger than the TTL, otherwise
fetch fresh with stale-cache fallback on failure. -/
def getCachedServiceConnections (st : ConnectionCache) (now : Int)
    (fetch : FetchOutcome) : Except Unit (List Nat × ConnectionCache × Bool) :=
  match st.cachedConnections, st.cacheTime with
  | some conns, some t =>
    if now - t < cacheDurationSeconds then .ok (conns, st, false)
    else fetchFreshConnections st now fetch
  | _, _ => fetchFreshConnections st now fetch

/-- Result of one `_process_service_connection` branch as observed by
`_async_update_data` after `asyncio.gather(..., return_exceptions=True)`:
either the branch raised, or it returned its connection id, an optional usage
response, and the count of inserted historical rows. -/
inductive PipelineResult
  | raised
  | completed (id : Nat) (resp : Option UsageResponse) (histCount : Nat)
deriving DecidableEq

/-- The result-collection loop of `_async_update_data` (coordinator.py):
exceptions are logged and skipped, branches with no usage response contribute
nothing, and each branch that completed with a response adds its entry to the
new snapshot, in order. -/
def collectUsageData : List PipelineResult → List (Nat × UsageResponse)
  | [] => []
  | .raised :: rest => collectUsageData rest
  | .completed _ none _ :: rest => collectUsageData rest
  | .completed id (some resp) _ :: rest => (id, resp) :: collectUsageData rest

/-- The coordinator's published snapshot as sensors read it
(`self.coordinator.data`): `none` when never populated, otherwise the
id-to-response mapping, empty when the last cycle produced nothing. -/
abbrev Snapshot := Option (List (Nat × UsageResponse))

/-- `self.coordinator.data.get(self.service_connection_id)`. -/
def lookupResponse (m : List (Nat × UsageResponse)) (id : Nat) :
    Option UsageResponse :=
  (m.find? (fun p => p.1 = id)).map (fun p => p.2)

/-- `_filter_recent_incomplete_data` (sensor.py): keep records dated before
yesterday, keep yesterday's records only when `total_gallons > 0`, drop
everything else (today and later, and zero-volume yesterday records). -/
def filterRecentIncompleteData (today : Int) (l : List UsageData) :
    List UsageData :=
  l.filter (fun d =>
    decide (dayKey d.startDate < today - 1) ||
    (decide (dayKey d.startDate = today - 1) && decide (0 < d.totalGallons)))

/-- `_get_latest_non_recent_value` (sensor.py): guard on missing snapshot,
missing connection or empty record list, filter out recent incomplete data,
and return the chosen field of the last surviving record (or none). -/
def getLatestNonRecentValue (today : Int) (field : UsageData → ℚ)
    (data : Snapshot) (id : Nat) : Option ℚ :=
  match data with
  | none => none
  | some m =>
    if m.isEmpty then none
    else
      match lookupResponse m id with
      | none => none
      | some resp =>
        if resp.usageData.isEmpty then none
        else ((filterRecentIncompleteData today resp.usageData).getLast?).map field

/-- `usage_response.usage_data[-days:]`: the last `days` records, or the whole
list when it is shorter. -/
def lastRecords (days : Nat) (l : List UsageData) : List UsageData :=
  if days ≤ l.length then l.drop (l.length - days) else l

/-- `_get_aggregated_usage` (sensor.py): 0.0 with no snapshot, no entry or no
records; otherwise the sum over the last `days` records of
`irrigation_gallons` for the irrigation sensor and `total_gallons` for the
rest. -/
def getAggregatedUsage (sensorKey : String) (days : Nat) (data : Snapshot)
    (id : Nat) : ℚ :=
  match data with
  | none => 0
  | some m =>
    if m.isEmpty then 0
    else
      match lookupResponse m id with
      | none => 0
      | some resp =>
        if resp.usageData.isEmpty then 0
        else
          let recent := lastRecords days resp.usageData
          if sensorKey = "irrigation_gallons" then
            (recent.map (fun d => d.irrigationGallons)).sum
          else
            (recent.map (fun d => d.totalGallons)).sum

/-- `_get_monthly_usage` (sensor.py): 0.0 with no snapshot, no entry or no
records; otherwise the sum of `total_gallons` over the records dated on or
after the first day of the current month. -/
def getMonthlyUsage (monthStart : Int) (data : Snapshot) (id : Nat) : ℚ :=
  match data with
  | none => 0
  | some m =>
    if m.isEmpty then 0
    else
      match lookupResponse m id with
      | none => 0
      | some resp =>
        if resp.usageData.isEmpty then 0
        else
          ((resp.usageData.filter (fun d => decide (monthStart ≤ dayKey d.startDate))).map
            (fun d => d.totalGallons)).sum

/-- `_get_latest_usage_data` (sensor.py): the last record of the connection's
list, or none when the snapshot, the entry or the list is missing. -/
def getLatestUsageData (data : Snapshot) (id : Nat) : Option UsageData :=
  match data with
  | none => none
  | some m =>
    if m.isEmpty then none
    else
      match lookupResponse m id with
      | none => none
      | some resp =>
        if resp.usageData.isEmpty then none else resp.usageData.getLast?

/-- `_get_leak_status` (binary_sensor.py): false with no snapshot, no entry or
no records; otherwise the last record's `is_leaking` flag. -/
def getLeakStatus (data : Snapshot) (id : Nat) : Bool :=
  match data with
  | none => false
  | some m =>
    if m.isEmpty then false
    else
      match lookupResponse m id with
      | none => false
      | some resp =>
        if resp.usageData.isEmpty then false
        else (resp.usageData.getLast?.map (fun d => d.isLeaking)).getD false

/-- `_get_connection_status` (binary_sensor.py): false with no snapshot;
otherwise true exactly when the connection has an entry with a non-empty
record list. -/
def getConnectionStatus (data : Snapshot) (id : Nat) : Bool :=
  match data with
  | none => false
  | some m =>
    if m.isEmpty then false
    else
      match lookupResponse m id with
      | none => false
      | some resp => !resp.usageData.isEmpty

/-! ## Helper lemmas -/

/-- The per-metric merge loop equals: filter out the records at or before the
checkpoint, then chain running sums from the checkpoint sum over the rest. -/
theorem processMetricStatistics_eq_append (T : Int) (S : ℚ)
    (v : UsageData → ℚ) (l : List UsageData) :
    processMetricStatistics T S v l =
      appendWithRunningSums S v
        (l.filter (fun d => decide (T < hourKey d.startDate))) := by
  induction l generalizing S with
  | nil => rfl
  | cons d rest ih =>
    by_cases h : hourKey d.startDate ≤ T
    · have hd : ¬T < hourKey d.startDate := not_lt.mpr h
      simp [processMetricStatistics, List.filter_cons, h, hd, ih]
    · have hd : T < hourKey d.startDate := lt_of_not_le h
      simp [processMetricStatistics, appendWithRunningSums, List.filter_cons, h, hd, ih]

/-- Membership in the detector's output. -/
theorem mem_detectNewHistoricalData (now : Int) (seen : List Int)
    (resp : UsageResponse) (d : UsageData) :
    d ∈ detectNewHistoricalData now seen resp ↔
      d ∈ resp.usageData ∧ hourKey d.startDate ∉ seen ∧
        7200 < now - d.startDate ∧ 0 < d.totalGallons := by
  rcases resp with ⟨l⟩
  cases l with
  | nil => simp [detectNewHistoricalData]
  | cons a rest =>
    simp [detectNewHistoricalData, List.mem_insertionSort, List.mem_filter,
      and_assoc]

/-! ## C1: settledness boundary of the detector -/

/-- C1 counterexample: a record 10 hours old (far more than 1 unit old, for
either a 1-hour or a 2-hour unit) with total volume 0 is claimed settled, but
the detector classifies it as not settled: with an empty seen set it emits
nothing for it. -/
theorem detector_zero_old_record_not_settled :
    (3600 < (36000 : Int) - (0 : Int)) ∧
      detectNewHistoricalData 36000 []
        ⟨[⟨0, 3600, 0, 0, 0, false⟩]⟩ = [] := by
  constructor
  · decide
  · decide

/-- C1 (amended): the detector classifies a record as settled exactly when it
is strictly more than 2 hours old AND its total volume is strictly positive;
it emits exactly the unseen records satisfying both.  In particular a
zero-volume record is never settled regardless of age, and a record at most
2 hours old is never settled regardless of value. -/
theorem detector_settled_boundary (now : Int) (seen : List Int)
    (resp : UsageResponse) (d : UsageData) :
    d ∈ detectNewHistoricalData now seen resp ↔
      d ∈ resp.usageData ∧ hourKey d.startDate ∉ seen ∧
        7200 < now - d.startDate ∧ 0 < d.totalGallons :=
  mem_detectNewHistoricalData now seen resp d

/-! ## C2: resuming from a persisted checkpoint -/

/-- C2: for a checkpoint with last-recorded timestamp `T` and cumulative sum
`S`, the merger inserts nothing for records whose hour-truncated timestamp is
at most `T`, and appends exactly the records beyond `T` as (timestamp, value,
running-sum) rows whose sums continue from `S`: the first new sum is `S` plus
the first new value and each subsequent sum adds the next value (this is
`appendWithRunningSums`). -/
theorem merger_resumes_from_checkpoint (T : Int) (S : ℚ)
    (v : UsageData → ℚ) (l : List UsageData) :
    processMetricStatistics T S v l =
      appendWithRunningSums S v
        (l.filter (fun d => decide (T < hourKey d.startDate))) :=
  processMetricStatistics_eq_append T S v l

/-! ## C3: checkpoint newer than all incoming data -/

/-- C3 counterexample: with a checkpoint 10 days ahead (last time 1728000 s,
sum 42) of a lone record at 864000 s with total volume 5, the merger inserts
nothing; the claimed behavior — reset the sum to 0 and insert the record as
(864000, 5, 5) — does not happen.  No staleness tolerance exists in the
code. -/
theorem merger_no_staleness_reset_counterexample :
    processMetricStatistics 1728000 42 (fun d => d.totalGallons)
        [⟨864000, 867600, 5, 1, 0, false⟩] = [] ∧
      ([] : List StatRow) ≠ [⟨864000, 5, 5⟩] := by
  constructor
  · decide
  · decide

/-- C3 (amended): the merger has no corruption/staleness tolerance check.
Whenever the checkpoint timestamp is at or beyond every incoming record's
hour-truncated timestamp — in particular when it is 10 days ahead of the
oldest incoming settled record — it inserts nothing and the cumulative sum is
never reset. -/
theorem merger_checkpoint_ahead_inserts_nothing (T : Int) (S : ℚ)
    (v : UsageData → ℚ) (l : List UsageData)
    (h : ∀ d ∈ l, hourKey d.startDate ≤ T) :
    processMetricStatistics T S v l = [] := by
  induction l generalizing S with
  | nil => rfl
  | cons d rest ih =>
    have hd := h d (List.mem_cons_self d rest)
    simp only [processMetricStatistics, if_pos hd]
    exact ih S (fun x hx => h x (List.mem_cons_of_mem d hx))

/-- C3 amended-claim witness: the checkpoint 10 days ahead of the single
record at 864000 s satisfies the hypothesis, and the merger inserts
nothing. -/
theorem merger_checkpoint_ahead_inserts_nothing_witness :
    processMetricStatistics 1728000 42 (fun d => d.totalGallons)
        [⟨864000, 867600, 5, 1, 0, false⟩] = [] :=
  merger_checkpoint_ahead_inserts_nothing 1728000 42 (fun d => d.totalGallons)
    [⟨864000, 867600, 5, 1, 0, false⟩] (by decide)

/-! ## More helper lemmas -/

/-- Truncating to the hour never moves a timestamp forward. -/
theorem hourKey_le (ts : Int) : hourKey ts ≤ ts := by
  unfold hourKey
  omega

/-- Session state only grows across one metric step. -/
theorem stepMetric_mem_preserved (cps : String → Option (Int × ℚ))
    (l : List UsageData) (acc : Nat × List InsertionKey) (m : String)
    (k : InsertionKey) (hk : k ∈ acc.2) : k ∈ (stepMetric cps l acc m).2 := by
  unfold stepMetric checkAndMarkStatisticsInserted
  by_cases hm : (m, minStartDate l, maxStartDate l) ∈ acc.2 <;>
    simp [hm, hk]

/-- After its own step, a metric's batch key is in the session state. -/
theorem stepMetric_self_mem (cps : String → Option (Int × ℚ))
    (l : List UsageData) (acc : Nat × List InsertionKey) (m : String) :
    (m, minStartDate l, maxStartDate l) ∈ (stepMetric cps l acc m).2 := by
  unfold stepMetric checkAndMarkStatisticsInserted
  by_cases hm : (m, minStartDate l, maxStartDate l) ∈ acc.2 <;>
    simp [hm]

/-- Session state only grows across the whole metric loop. -/
theorem foldl_stepMetric_mem_preserved (cps : String → Option (Int × ℚ))
    (l : List UsageData) (ms : List String) (acc : Nat × List InsertionKey)
    (k : InsertionKey) (hk : k ∈ acc.2) :
    k ∈ (ms.foldl (stepMetric cps l) acc).2 := by
  induction ms generalizing acc with
  | nil => exact hk
  | cons m rest ih =>
    exact ih (stepMetric cps l acc m) (stepMetric_mem_preserved cps l acc m k hk)

/-- After the metric loop, every processed metric's batch key is in the
session state. -/
theorem foldl_stepMetric_key_mem (cps : String → Option (Int × ℚ))
    (l : List UsageData) (ms : List String) (acc : Nat × List InsertionKey)
    (m : String) (hm : m ∈ ms) :
    (m, minStartDate l, maxStartDate l) ∈ (ms.foldl (stepMetric cps l) acc).2 := by
  induction ms generalizing acc with
  | nil => cases hm
  | cons m0 rest ih =>
    rcases List.mem_cons.mp hm with h | h
    · subst h
      exact foldl_stepMetric_mem_preserved cps l rest (stepMetric cps l acc m) _
        (stepMetric_self_mem cps l acc m)
    · exact ih (stepMetric cps l acc m0) h

/-- A metric step whose batch key is already in the session is the
identity. -/
theorem stepMetric_noop (cps : String → Option (Int × ℚ))
    (l : List UsageData) (acc : Nat × List InsertionKey) (m : String)
    (hm : (m, minStartDate l, maxStartDate l) ∈ acc.2) :
    stepMetric cps l acc m = acc := by
  unfold stepMetric checkAndMarkStatisticsInserted
  simp [hm]

/-- The metric loop is the identity when every metric's batch key is already
in the session. -/
theorem foldl_stepMetric_noop (cps : String → Option (Int × ℚ))
    (l : List UsageData) (ms : List String) (acc : Nat × List InsertionKey)
    (hall : ∀ m ∈ ms, (m, minStartDate l, maxStartDate l) ∈ acc.2) :
    ms.foldl (stepMetric cps l) acc = acc := by
  induction ms with
  | nil => rfl
  | cons m rest ih =>
    rw [List.foldl_cons, stepMetric_noop cps l acc m (hall m (List.mem_cons_self m rest))]
    exact ih (fun x hx => hall x (List.mem_cons_of_mem m hx))

/-! ## C4: idempotent detection -/

/-- C4 counterexample: with `now` = 1000000000 s, a positive-volume record
8 days old (start 999308800 s, outside the 7-day retention window) is
detected, the seen-window update refuses to retain its hour key, and an
immediate second detection over the same records returns it again instead of
the empty list. -/
theorem detector_not_idempotent_outside_window :
    detectNewHistoricalData 1000000000
        (updateHistoricalState 1000000000 []
          ⟨[⟨999308800, 999312400, 5, 1, 0, false⟩]⟩)
        ⟨[⟨999308800, 999312400, 5, 1, 0, false⟩]⟩ =
      [⟨999308800, 999312400, 5, 1, 0, false⟩] ∧
    ([⟨999308800, 999312400, 5, 1, 0, false⟩] : List UsageData) ≠ [] := by
  constructor
  · decide
  · decide

/-- C4 (amended): running detect then update-seen-window on a record set `R`
makes an immediate second detection over the same `R` return the empty list,
provided every record's hour-truncated timestamp lies strictly inside the
7-day retention window (records at or beyond the window boundary are refused
by the seen-window update and are re-detected every poll). -/
theorem detector_idempotent_within_window (now : Int) (seen : List Int)
    (resp : UsageResponse)
    (h : ∀ d ∈ resp.usageData, now - retentionSeconds < hourKey d.startDate) :
    detectNewHistoricalData now (updateHistoricalState now seen resp) resp = [] := by
  rcases resp with ⟨l⟩
  rcases l with _ | ⟨a, rest⟩
  · rfl
  · have hfilter : (a :: rest).filter (fun d =>
        decide (hourKey d.startDate ∉ updateHistoricalState now seen ⟨a :: rest⟩) &&
        decide (7200 < now - d.startDate) &&
        decide (0 < d.totalGallons)) = [] := by
      rw [List.filter_eq_nil_iff]
      intro d hd
      simp only [Bool.and_eq_true, decide_eq_true_eq, not_and]
      intro hmem hage
      exfalso
      apply hmem.1
      have hcut : now - retentionSeconds < hourKey d.startDate := h d hd
      have hlt : d.startDate < now := by omega
      have hle : hourKey d.startDate ≤ now :=
        le_trans (hourKey_le d.startDate) (le_of_lt hlt)
      simp only [updateHistoricalState, List.isEmpty_cons, Bool.false_eq_true,
        if_false, List.mem_filter, List.mem_append, List.mem_map,
        Bool.and_eq_true, decide_eq_true_eq]
      refine ⟨Or.inr ⟨⟨d, hd, rfl⟩, le_of_lt hcut, hle⟩, hcut⟩
    simp only [detectNewHistoricalData, List.isEmpty_cons, Bool.false_eq_true,
      if_false, hfilter]
    rfl

/-- C4 amended-claim witness: a record 5 hours old at `now` = 1000000000 s is
inside the retention window; after detect then update, the second detection
returns the empty list. -/
theorem detector_idempotent_within_window_witness :
    detectNewHistoricalData 1000000000
        (updateHistoricalState 1000000000 []
          ⟨[⟨999982000, 999985600, 5, 1, 0, false⟩]⟩)
        ⟨[⟨999982000, 999985600, 5, 1, 0, false⟩]⟩ = [] :=
  detector_idempotent_within_window 1000000000 []
    ⟨[⟨999982000, 999985600, 5, 1, 0, false⟩]⟩ (by decide)

/-! ## C5: second merge of the same batch is a no-op -/

/-- C5: for a non-empty batch of settled records, merging the same batch twice
within one session (the insertion keys pair each metric with the batch's
minimum and maximum record timestamps) makes the second merge insert nothing:
its inserted count is 0. -/
theorem second_merge_of_same_batch_noop (cps : String → Option (Int × ℚ))
    (session : List InsertionKey) (l : List UsageData) (h : l ≠ []) :
    (insertHistoricalStatistics cps
      (insertHistoricalStatistics cps session l).2 l).1 = 0 := by
  have hne : l.isEmpty = false := by
    cases l with
    | nil => exact absurd rfl h
    | cons a rest => rfl
  unfold insertHistoricalStatistics
  rw [hne]
  simp only [Bool.false_eq_true, if_false]
  have hkeys : ∀ m ∈ metricTypes, (m, minStartDate l, maxStartDate l) ∈
      (metricTypes.foldl (stepMetric cps l) (0, session)).2 :=
    fun m hm => foldl_stepMetric_key_mem cps l metricTypes (0, session) m hm
  rw [foldl_stepMetric_noop cps l metricTypes
    (0, (metricTypes.foldl (stepMetric cps l) (0, session)).2) hkeys]

/-- C5 witness: one concrete record merged twice against an empty checkpoint
store; the second merge's inserted count is 0. -/
theorem second_merge_of_same_batch_noop_witness :
    (insertHistoricalStatistics (fun _ => none)
      (insertHistoricalStatistics (fun _ => none) []
        [⟨7200, 10800, 5, 1, 0, false⟩]).2
      [⟨7200, 10800, 5, 1, 0, false⟩]).1 = 0 :=
  second_merge_of_same_batch_noop (fun _ => none) []
    [⟨7200, 10800, 5, 1, 0, false⟩] (by decide)

/-! ## C6: connection cache freshness and degraded-mode fallback -/

/-- C6: `_get_cached_service_connections` returns the cached list with no API
call while the cache is younger than the 5-minute TTL; on a fetch failure (a
`None` return or an exception) it returns the cached list unchanged whenever
any cache exists, even an expired one; and it fails only when no cache has
ever been populated. -/
theorem connection_cache_fresh_and_fallback (st : ConnectionCache) (now : Int)
    (fetch : FetchOutcome) :
    (∀ conns t, st.cachedConnections = some conns → st.cacheTime = some t →
      now - t < cacheDurationSeconds →
      getCachedServiceConnections st now fetch = .ok (conns, st, false)) ∧
    (∀ conns, st.cachedConnections = some conns →
      (fetch = .returnedNone ∨ fetch = .raisedError) →
      ∃ b, getCachedServiceConnections st now fetch = .ok (conns, st, b)) ∧
    (getCachedServiceConnections st now fetch = .error () →
      st.cachedConnections = none ∧
        (fetch = .returnedNone ∨ fetch = .raisedError)) := by
  rcases st with ⟨oc, ot⟩
  refine ⟨?_, ?_, ?_⟩
  · intro conns t hc ht hfresh
    simp only at hc ht
    subst hc; subst ht
    simp [getCachedServiceConnections, if_pos hfresh]
  · intro conns hc hfail
    simp only at hc
    subst hc
    cases ot with
    | none =>
      rcases hfail with hf | hf <;> subst hf <;>
        exact ⟨true, by simp [getCachedServiceConnections, fetchFreshConnections]⟩
    | some t =>
      by_cases hfresh : now - t < cacheDurationSeconds
      · exact ⟨false, by simp [getCachedServiceConnections, if_pos hfresh]⟩
      · rcases hfail with hf | hf <;> subst hf <;>
          exact ⟨true, by simp [getCachedServiceConnections, if_neg hfresh,
            fetchFreshConnections]⟩
  · intro herr
    cases oc with
    | some conns =>
      exfalso
      cases ot with
      | none =>
        cases fetch <;> simp [getCachedServiceConnections,
          fetchFreshConnections] at herr
      | some t =>
        by_cases hfresh : now - t < cacheDurationSeconds
        · simp [getCachedServiceConnections, if_pos hfresh] at herr
        · cases fetch <;> simp [getCachedServiceConnections, if_neg hfresh,
            fetchFreshConnections] at herr
    | none =>
      refine ⟨rfl, ?_⟩
      cases fetch with
      | success conns =>
        exfalso
        cases ot <;> simp [getCachedServiceConnections,
          fetchFreshConnections] at herr
      | returnedNone => exact Or.inl rfl
      | raisedError => exact Or.inr rfl

/-- C6 witness: a cache written at time 0 read at time 100 (younger than the
300 s TTL) is returned unchanged with no API call, even though the fetch
outcome would have been an exception. -/
theorem connection_cache_fresh_and_fallback_witness :
    getCachedServiceConnections ⟨some [1, 2], some 0⟩ 100 .raisedError =
      .ok ([1, 2], ⟨some [1, 2], some 0⟩, false) :=
  (connection_cache_fresh_and_fallback ⟨some [1, 2], some 0⟩ 100
    .raisedError).1 [1, 2] 0 rfl rfl (by decide)

/-! ## C7: retention bound on the seen window -/

/-- C7: after every seen-window update that processes a non-empty usage
response, and after every cleanup pass, the window holds no timestamp older
than the retention boundary `now - 7 days`: every retained hour is strictly
newer than the boundary, whatever time span the incoming timestamps cover.
(An empty response returns early and leaves the window untouched.) -/
theorem seen_window_retention_bound (now : Int) (seen : List Int)
    (resp : UsageResponse) :
    (resp.usageData ≠ [] →
      ∀ h ∈ updateHistoricalState now seen resp, now - retentionSeconds < h) ∧
    (∀ h ∈ cleanupHistoricalState now seen, now - retentionSeconds < h) := by
  constructor
  · intro hne h hmem
    rcases resp with ⟨l⟩
    rcases l with _ | ⟨a, rest⟩
    · exact absurd rfl hne
    · simp only [updateHistoricalState, List.isEmpty_cons, Bool.false_eq_true,
        if_false, List.mem_filter, decide_eq_true_eq] at hmem
      exact hmem.2
  · intro h hmem
    simp only [cleanupHistoricalState, List.mem_filter,
      decide_eq_true_eq] at hmem
    exact hmem.2

/-- C7 witness: updating an empty window at `now` = 1000000000 s with one
record about 2000 s old retains its hour key 999997200 s, which is strictly newer
than the boundary 999395200 s. -/
theorem seen_window_retention_bound_witness :
    (1000000000 : Int) - retentionSeconds < 999997200 :=
  (seen_window_retention_bound 1000000000 []
    ⟨[⟨999998000, 1000001600, 5, 1, 0, false⟩]⟩).1 (by decide)
    999997200 (by decide)

/-! ## C8: filtered "complete" latest value -/

/-- C8: the complete-latest filter drops every record dated today or later
unconditionally, drops a record dated yesterday exactly when its total volume
is zero (volumes being nonnegative) and keeps it when positive, keeps every
record dated two or more days ago, and the reader returns the latest
surviving record's field — none when nothing survives. -/
theorem sensor_complete_latest_filter (today : Int) (l : List UsageData) :
    (∀ d ∈ l, today ≤ dayKey d.startDate →
      d ∉ filterRecentIncompleteData today l) ∧
    (∀ d ∈ l, dayKey d.startDate = today - 1 → 0 ≤ d.totalGallons →
      (d ∈ filterRecentIncompleteData today l ↔ d.totalGallons ≠ 0)) ∧
    (∀ d ∈ l, dayKey d.startDate < today - 1 →
      d ∈ filterRecentIncompleteData today l) ∧
    (∀ field id, filterRecentIncompleteData today l = [] →
      getLatestNonRecentValue today field (some [(id, ⟨l⟩)]) id = none) ∧
    (∀ field id d pre, filterRecentIncompleteData today l = pre ++ [d] →
      getLatestNonRecentValue today field (some [(id, ⟨l⟩)]) id =
        some (field d)) := by
  refine ⟨?_, ?_, ?_, ?_, ?_⟩
  · intro d _ hday hmem
    simp only [filterRecentIncompleteData, List.mem_filter, Bool.or_eq_true,
      Bool.and_eq_true, decide_eq_true_eq] at hmem
    omega
  · intro d hd hday hnn
    simp only [filterRecentIncompleteData, List.mem_filter, Bool.or_eq_true,
      Bool.and_eq_true, decide_eq_true_eq]
    constructor
    · rintro ⟨-, hlt | ⟨-, hpos⟩⟩
      · omega
      · exact ne_of_gt hpos
    · intro hne
      exact ⟨hd, Or.inr ⟨hday, lt_of_le_of_ne hnn (Ne.symm hne)⟩⟩
  · intro d hd hday
    simp only [filterRecentIncompleteData, List.mem_filter, Bool.or_eq_true,
      Bool.and_eq_true, decide_eq_true_eq]
    exact ⟨hd, Or.inl hday⟩
  · intro field id hempty
    cases l with
    | nil => simp [getLatestNonRecentValue, lookupResponse]
    | cons a rest =>
      simp [getLatestNonRecentValue, lookupResponse, hempty]
  · intro field id d pre hsplit
    cases l with
    | nil =>
      exfalso
      have hnil : filterRecentIncompleteData today [] = [] := rfl
      rw [hnil] at hsplit
      exact (List.append_ne_nil_of_right_ne_nil pre
        (by simp : ([d] : List UsageData) ≠ [])) hsplit.symm
    | cons a rest =>
      simp [getLatestNonRecentValue, lookupResponse, hsplit]

/-- C8 witness: records at days −3, −2, −1 (value 150) and 0 (value 0)
relative to day 20000; the complete-latest read returns the −1 record's value
150, not 0. -/
theorem sensor_complete_latest_filter_witness :
    getLatestNonRecentValue 20000 (fun d => d.totalGallons)
      (some [(1, ⟨[⟨1727740800, 1727827200, 10, 0, 0, false⟩,
                   ⟨1727827200, 1727913600, 20, 0, 0, false⟩,
                   ⟨1727913600, 1728000000, 150, 0, 0, false⟩,
                   ⟨1728000000, 1728086400, 0, 0, 0, false⟩]⟩)]) 1 =
      some 150 :=
  (sensor_complete_latest_filter 20000
      [⟨1727740800, 1727827200, 10, 0, 0, false⟩,
       ⟨1727827200, 1727913600, 20, 0, 0, false⟩,
       ⟨1727913600, 1728000000, 150, 0, 0, false⟩,
       ⟨1728000000, 1728086400, 0, 0, 0, false⟩]).2.2.2.2
    (fun d => d.totalGallons) 1 ⟨1727913600, 1728000000, 150, 0, 0, false⟩
    [⟨1727740800, 1727827200, 10, 0, 0, false⟩,
     ⟨1727827200, 1727913600, 20, 0, 0, false⟩] (by decide)

/-! ## C9: snapshot after a cycle with partial failures -/

/-- C9: the snapshot assembled from the gathered per-connection pipeline
results contains exactly the connection ids whose pipeline completed with a
usage response: raised branches and branches without a response are absent
and do not prevent the successful entries from being published. -/
theorem snapshot_has_exactly_successful_connections
    (results : List PipelineResult) (id : Nat) :
    (∃ resp, (id, resp) ∈ collectUsageData results) ↔
      (∃ resp hist, PipelineResult.completed id (some resp) hist ∈ results) := by
  induction results with
  | nil => simp [collectUsageData]
  | cons r rest ih =>
    cases r with
    | raised =>
      rw [collectUsageData]
      rw [ih]
      simp
    | completed i oresp hc =>
      cases oresp with
      | none =>
        rw [collectUsageData]
        rw [ih]
        simp
      | some resp0 =>
        simp only [collectUsageData, List.mem_cons, Prod.mk.injEq,
          PipelineResult.completed.injEq, Option.some.injEq]
        constructor
        · rintro ⟨resp, ⟨rfl, rfl⟩ | hmem⟩
          · exact ⟨resp, hc, Or.inl ⟨rfl, rfl, rfl⟩⟩
          · obtain ⟨r1, h1, hm⟩ := ih.mp ⟨resp, hmem⟩
            exact ⟨r1, h1, Or.inr hm⟩
        · rintro ⟨resp, hist, ⟨rfl, rfl, rfl⟩ | hmem⟩
          · exact ⟨resp, Or.inl ⟨rfl, rfl⟩⟩
          · obtain ⟨r1, hm⟩ := ih.mpr ⟨resp, hist, hmem⟩
            exact ⟨r1, Or.inr hm⟩

/-! ## C10: defined defaults when a connection has no published data -/

/-- C10: when the coordinator has no published data for a connection — no
snapshot at all, an empty snapshot, a missing entry, or an entry with an
empty record list — every derived reader returns its defined default:
month-to-date and rolling-N sums return 0, the leak and connected binary
sensors return false, and both latest-value readers return none. -/
theorem sensors_default_on_missing_data (monthStart today : Int)
    (key : String) (days : Nat) (field : UsageData → ℚ) (data : Snapshot)
    (id : Nat)
    (h : data = none ∨ data = some [] ∨
      (∃ m, data = some m ∧ lookupResponse m id = none) ∨
      (∃ m resp, data = some m ∧ lookupResponse m id = some resp ∧
        resp.usageData = [])) :
    getMonthlyUsage monthStart data id = 0 ∧
    getAggregatedUsage key days data id = 0 ∧
    getLeakStatus data id = false ∧
    getConnectionStatus data id = false ∧
    getLatestUsageData data id = none ∧
    getLatestNonRecentValue today field data id = none := by
  rcases h with rfl | rfl | ⟨m, rfl, hlook⟩ | ⟨m, resp, rfl, hlook, hdata⟩
  · exact ⟨rfl, rfl, rfl, rfl, rfl, rfl⟩
  · exact ⟨rfl, rfl, rfl, rfl, rfl, rfl⟩
  · cases hm : m.isEmpty <;>
      simp [getMonthlyUsage, getAggregatedUsage, getLeakStatus,
        getConnectionStatus, getLatestUsageData, getLatestNonRecentValue,
        hm, hlook]
  · cases hm : m.isEmpty <;>
      simp [getMonthlyUsage, getAggregatedUsage, getLeakStatus,
        getConnectionStatus, getLatestUsageData, getLatestNonRecentValue,
        hm, hlook, hdata]

/-- C10 witness: with no snapshot ever published, every reader yields its
default. -/
theorem sensors_default_on_missing_data_witness :
    getMonthlyUsage 0 none 1 = 0 ∧
    getAggregatedUsage "daily_total" 7 none 1 = 0 ∧
    getLeakStatus none 1 = false ∧
    getConnectionStatus none 1 = false ∧
    getLatestUsageData none 1 = none ∧
    getLatestNonRecentValue 0 (fun d => d.totalGallons) none 1 = none :=
  sensors_default_on_missing_data 0 0 "daily_total" 7
    (fun d => d.totalGallons) none 1 (Or.inl rfl)
